import Mathlib

/-!
Verification of the Hebbian reinforcement-learning network (`hebbian_net.py`).

Shallow embedding conventions:
* numpy 2-D arrays are total functions `Nat → Nat → ℚ` (`Mat`), indexed
  row-first; the relevant extent (batch size, number of runs, ...) is passed
  explicitly where an operation sums or iterates over an axis;
* floats are idealized as rationals `ℚ`;
* code that raises a Python exception is embedded as `Except String _`
  returning `.error` with the exception text;
* randomness (noise draws, shuffled data, propagation results) enters the
  embedding as explicit function arguments, so every theorem quantifies over
  all possible random outcomes.

Functions from the module `helper.external` (imported as `ex` in
`hebbian_net.py`) are not part of the repository snapshot; the ones needed
here (`disinhibition`, `regularization`, `compute_dopa`) are modelled from
the specification and marked as such in their doc comments.
-/

/-- A 2-D numpy array, embedded as a total function on indices. -/
abbrev Mat : Type := Nat → Nat → ℚ

/-- Embeds `hebbian_net.py` line 630:
`if dopa is None or dopa.shape[0]!=post_neurons.shape[0]: dopa=np.ones(post_neurons.shape[0])`.
The optional dopamine vector carries its numpy length so the shape test is
expressible; it defaults to the all-ones vector when absent or mis-sized. -/
def default_dopa (batch : Nat) : Option (Nat × (Nat → ℚ)) → (Nat → ℚ)
  | none => fun _ => 1
  | some (len, d) => if len ≠ batch then fun _ => 1 else d

/-- Modelled from the spec: `helper.external.disinhibition` (the numba-accelerated
path of the learning rule) is not under `src/`; per spec §4.4 it scales each
sample's post-synaptic activation row by `learning_rate × dopa[sample]`,
broadcasting the dopamine scalar across post neurons. -/
def disinhibition (post_neurons : Mat) (lr : ℚ) (dopa : Nat → ℚ) : Mat :=
  fun s j => post_neurons s j * (lr * dopa s)

/-- `np.dot(pre_neurons.T, postNeurons_lr)`: the outer-product correlation
summed over the `batch` samples (`hebbian_net.py` line 634). -/
def pre_T_dot (batch : Nat) (pre_neurons postNeurons_lr : Mat) : Mat :=
  fun i j => ∑ s in Finset.range batch, pre_neurons s i * postNeurons_lr s j

/-- `np.sum(M, 0)`: column sum over the `batch` samples. -/
def col_sum (batch : Nat) (M : Mat) (j : Nat) : ℚ :=
  ∑ s in Finset.range batch, M s j

/-- Modelled from the spec: `helper.external.regularization` (numba path) is not
under `src/`; per spec §4.4 it subtracts from the correlation term a
normalization equal to `(column sum of scaled_post) × current_weights`.  The
spec's design note §9 states the numba and plain paths compute the same update,
and the plain path (`hebbian_net.py` line 638) is in `src/` and matches. -/
def regularization (batch : Nat) (dot postNeurons_lr W : Mat) : Mat :=
  fun i j => dot i j - col_sum batch postNeurons_lr j * W i j

/-- The weight delta `dW` computed by `Network._learning_step`
(`hebbian_net.py` lines 630-638), for both values of the `numba` flag. -/
def learning_step_dW (numba : Bool) (batch : Nat) (pre_neurons post_neurons W : Mat)
    (lr : ℚ) (dopa : Option (Nat × (Nat → ℚ))) : Mat :=
  let d := default_dopa batch dopa
  if numba then
    let postNeurons_lr := disinhibition post_neurons lr d
    regularization batch (pre_T_dot batch pre_neurons postNeurons_lr) postNeurons_lr W
  else
    let postNeurons_lr : Mat := fun s j => post_neurons s j * (lr * d s)
    fun i j => (∑ s in Finset.range batch, pre_neurons s i * postNeurons_lr s j)
      - (∑ s in Finset.range batch, postNeurons_lr s j) * W i j

/-- The successful (non-`lim_weights`) result of `Network._learning_step`
(`hebbian_net.py` lines 644-649): with `lim_weights` off the column mask is
all-`True`, so `W[:,mask] += dW[:,mask]` adds the whole delta, and
`W = np.clip(W, 1e-10, np.inf)` clamps every entry to the floor `1e-10`. -/
def learning_step_ok (numba : Bool) (batch : Nat) (pre_neurons post_neurons W : Mat)
    (lr : ℚ) (dopa : Option (Nat × (Nat → ℚ))) : Mat :=
  fun i j => max (W i j + learning_step_dW numba batch pre_neurons post_neurons W lr dopa i j)
    (1 / 10 ^ 10)

/-- `Network._learning_step` (`hebbian_net.py` lines 616-649).  When
`lim_weights` is `True`, evaluating the guard on line 641
(`if self.lim_weights and e>=self.n_epi_crit + self.n_epi_fine`) raises
`NameError`: `e` is not a local of `_learning_step` nor a module global (and
line 642 would likewise reference the undefined `hid_dW`), so the call fails
before any weight is updated. -/
def learning_step (lim_weights numba : Bool) (batch : Nat)
    (pre_neurons post_neurons W : Mat) (lr : ℚ)
    (dopa : Option (Nat × (Nat → ℚ))) : Except String Mat :=
  if lim_weights then .error "NameError: name e is not defined"
  else .ok (learning_step_ok numba batch pre_neurons post_neurons W lr dopa)

/-- One entry of a sequence of learning-rule updates: the per-step arguments of
`Network._learning_step` other than the weight matrix itself. -/
structure LStep where
  numba : Bool
  batch : Nat
  pre_neurons : Mat
  post_neurons : Mat
  lr : ℚ
  dopa : Option (Nat × (Nat → ℚ))

/-- Applies a sequence of `Network._learning_step` updates to a weight matrix,
threading the returned matrix into the next step, as the training loop does
(`hebbian_net.py` lines 245-247). -/
def run_learning_steps (lim_weights : Bool) : List LStep → Mat → Except String Mat
  | [], W => .ok W
  | s :: rest, W =>
    match learning_step lim_weights s.numba s.batch s.pre_neurons s.post_neurons W s.lr s.dopa with
    | .error msg => .error msg
    | .ok W' => run_learning_steps lim_weights rest W'

/-- The four configured dopamine-release values
(`self.dopa_values` / `self.dopa_values_out`, `hebbian_net.py` lines 76-79). -/
structure DopaValues where
  dHigh : ℚ
  dMid : ℚ
  dNeut : ℚ
  dLow : ℚ

/-- Modelled from the spec: `helper.external.compute_dopa` is not under `src/`;
per spec §4.3 it is a per-sample table lookup on
(prediction expectation : low/high) × (reward : absent/present):
`dHigh` for (expected low, delivered), `dMid` for (expected, delivered),
`dNeut` for (expected low, absent), `dLow` for (expected, absent). -/
def compute_dopa (predicted_reward reward : Nat → Bool) (dv : DopaValues) : Nat → ℚ :=
  fun s =>
    if predicted_reward s then (if reward s then dv.dMid else dv.dLow)
    else (if reward s then dv.dHigh else dv.dNeut)

/-- `Network._dopa_release` (`hebbian_net.py` lines 598-614): routes the
table-derived dopamine signal to exactly one layer depending on the current
episode `e` relative to the phase boundaries and on whether the class layer is
trained (`self._train_class_layer`).  The returned pair is
(hidden-layer dopamine, output-layer dopamine); the `np.ones(batch_size)` /
`np.zeros(batch_size)` vectors are embedded as constant functions. -/
def dopa_release (n_epi_crit n_epi_fine n_epi_dopa e : Nat) (train_class_layer : Bool)
    (pred_hid pred_out rew_hid rew_out : Nat → Bool)
    (dopa_values dopa_values_out : DopaValues) : (Nat → ℚ) × (Nat → ℚ) :=
  if (e < n_epi_crit + n_epi_fine ∨ n_epi_crit + n_epi_fine + n_epi_dopa ≤ e)
      ∧ train_class_layer = true then
    (fun _ => 1, compute_dopa pred_out rew_out dopa_values_out)
  else if n_epi_crit + n_epi_fine ≤ e ∧ e < n_epi_crit + n_epi_fine + n_epi_dopa then
    (compute_dopa pred_hid rew_hid dopa_values, fun _ => 0)
  else
    (fun _ => 1, fun _ => 1)

/-- A heterogeneous Python value as stored in the early-stop records
(`self._early_stop_cond` holds strings, ints and floats). -/
inductive PyVal where
  | s : String → PyVal
  | n : Nat → PyVal
  | q : ℚ → PyVal
deriving DecidableEq

/-- One record appended to `self._early_stop_cond`
(`hebbian_net.py` lines 663, 674, 689, 708). -/
structure StopRecord where
  epi : Nat
  epi_cond : PyVal
  threshold_cond : PyVal
deriving DecidableEq

/-- `(self.perf_*_prog[r, e-1:e+1]==1.0).all()` (`hebbian_net.py` lines 656-658):
the last two recorded episodes of a performance trace equal `1.0`. -/
def max_perf_cond (trace : Nat → ℚ) (e : Nat) : Prop :=
  trace (e - 1) = 1 ∧ trace e = 1

instance (trace : Nat → ℚ) (e : Nat) : Decidable (max_perf_cond trace e) := by
  unfold max_perf_cond; infer_instance

/-- `((np.roll(perf,-1)-perf)[:-1]<0).all()` over `perf = trace[e-5:e]`
(`hebbian_net.py` lines 680-684): the four consecutive differences of the five
episodes before `e` are all negative. -/
def decreasing_cond (trace : Nat → ℚ) (e : Nat) : Prop :=
  ∀ k < 4, trace (e - 5 + k + 1) - trace (e - 5 + k) < 0

instance (trace : Nat → ℚ) (e : Nat) : Decidable (decreasing_cond trace e) := by
  unfold decreasing_cond; infer_instance

/-- The window `trace[e-n:e]` as a list (length `n`, guarded by `n ≤ e` at the
call sites). -/
def window_vals (trace : Nat → ℚ) (start len : Nat) : List ℚ :=
  (List.range len).map (fun k => trace (start + k))

/-- `np.max` over a performance window. -/
def wmax (trace : Nat → ℚ) (start len : Nat) : ℚ :=
  (window_vals trace start len).foldl max (trace start)

/-- `np.min` over a performance window. -/
def wmin (trace : Nat → ℚ) (start len : Nat) : ℚ :=
  (window_vals trace start len).foldl min (trace start)

/-- `np.max(p_range)-np.min(p_range) <= t` over `p_range = trace[e-n:e]`
(`hebbian_net.py` lines 698-703). -/
def plateau_cond (trace : Nat → ℚ) (e n : Nat) (t : ℚ) : Prop :=
  wmax trace (e - n) n - wmin trace (e - n) n ≤ t

instance (trace : Nat → ℚ) (e n : Nat) (t : ℚ) : Decidable (plateau_cond trace e n t) := by
  unfold plateau_cond; infer_instance

/-- `Network._assess_early_stop` (`hebbian_net.py` lines 651-710).  Returns
`some r` when the method returns `True` after appending record `r` to
`self._early_stop_cond`, and `none` when it returns `False`.  The four
condition blocks appear in source order: performance at ceiling (guarded by
`self._e>=2`), performance at chance floor, performance decreasing for 5
episodes (guarded by `self._e>=5`; note its record reuses the string
`'max_perf'`, exactly as lines 689 write it), and the two plateau windows
`(10, 0.0001)` and `(20, 0.0005)`. -/
def assess_early_stop (early_stop : Bool) (e n_out_neurons : Nat) (test_each_epi : Bool)
    (perf_train perf_test : Nat → ℚ) : Option StopRecord :=
  if early_stop = true then
    if 2 ≤ e ∧ max_perf_cond perf_train e ∧
        (test_each_epi = true → max_perf_cond perf_test e) then
      some ⟨e, PyVal.s "max_perf", PyVal.s "max_perf"⟩
    else if perf_train e < 1 / (n_out_neurons : ℚ) + 1 / 100000 ∧
        (test_each_epi = true → perf_test e < 1 / (n_out_neurons : ℚ) + 1 / 100000) then
      some ⟨e, PyVal.s "min_perf", PyVal.s "min_perf"⟩
    else if 5 ≤ e ∧ decreasing_cond perf_train e ∧
        (test_each_epi = true → decreasing_cond perf_test e) then
      some ⟨e, PyVal.s "max_perf", PyVal.s "max_perf"⟩
    else if 10 ≤ e ∧ plateau_cond perf_train e 10 (1 / 10000) ∧
        (test_each_epi = true → plateau_cond perf_test e 10 (1 / 10000)) then
      some ⟨e, PyVal.n 10, PyVal.q (1 / 10000)⟩
    else if 20 ≤ e ∧ plateau_cond perf_train e 20 (5 / 10000) ∧
        (test_each_epi = true → plateau_cond perf_test e 20 (5 / 10000)) then
      some ⟨e, PyVal.n 20, PyVal.q (5 / 10000)⟩
    else none
  else none

/-- A concrete training-performance trace that decreases over episodes 0-5:
`[0.95, 0.9, 0.85, 0.8, 0.75, 0.7, 0.7, ...]`. -/
def decr_trace : Nat → ℚ := fun k =>
  if k = 0 then 19 / 20
  else if k = 1 then 9 / 10
  else if k = 2 then 17 / 20
  else if k = 3 then 4 / 5
  else if k = 4 then 3 / 4
  else 7 / 10

/-- The legal classifier values (`hebbian_net.py` line 445). -/
def legal_classifiers : List String := ["neural_prob", "neural_DA", "bayesian"]

/-- The legal protocol values (`hebbian_net.py` line 447). -/
def legal_protocols : List String := ["digit", "gabor", "toy_data"]

/-- The legal pdf_method values (`hebbian_net.py` line 449). -/
def legal_pdf_methods : List String := ["fit", "subsample", "full"]

/-- `Network._check_parameters` (`hebbian_net.py` lines 443-450), invoked by
`Network.__init__` (line 116) before construction completes and before any
training computation: raises `ValueError` for an illegal `classifier`,
`protocol` or `pdf_method`, checked in that order. -/
def check_parameters (classifier protocol pdf_method : String) : Except String Unit :=
  if classifier ∉ legal_classifiers then
    .error ("not a legal classifier value: " ++ classifier)
  else if protocol ∉ legal_protocols then
    .error ("not a legal protocol value: " ++ protocol)
  else if pdf_method ∉ legal_pdf_methods then
    .error ("not a legal pdf_method value: " ++ pdf_method)
  else .ok ()

/-- `Network._propagate_bayesian` (`hebbian_net.py` lines 563-565): its first
statement raises `NotImplementedError`, before any activation is computed
(the remainder of the method body is commented out in the source). -/
def propagate_bayesian (α : Type) (_batch_images : List (List ℚ)) : Except String α :=
  .error "bayesian method out of date since compare_output"

/-- `Network._propagate` (`hebbian_net.py` lines 460-469): dispatches on the
classifier.  The neural code paths compute randomized activations; they are
abstracted here as the supplied result functions of the batch, since only the
dispatch structure matters for the claims.  A classifier outside the three
legal values would leave the Python return variables unbound
(`UnboundLocalError`). -/
def propagate (α : Type) (classifier : String) (batch_images : List (List ℚ))
    (neural_DA_result neural_prob_result : List (List ℚ) → α) : Except String α :=
  if classifier = "bayesian" then propagate_bayesian α batch_images
  else if classifier = "neural_DA" then .ok (neural_DA_result batch_images)
  else if classifier = "neural_prob" then .ok (neural_prob_result batch_images)
  else .error "UnboundLocalError: local variable greedy referenced before assignment"

/-- A numpy 2-D array together with its shape, for the file-initialization
shape checks (`np.shape`). -/
structure MatS where
  rows : Nat
  cols : Nat
  entry : Nat → Nat → ℚ

/-- The part of a pickled `Network` read by `_init_weights_file`: the number of
saved runs and the per-run trained weight matrices. -/
structure SavedNetwork where
  n_runs : Nat
  hid_W_trained : Nat → MatS
  out_W_trained : Nat → MatS

/-- `Network._init_weights_file` (`hebbian_net.py` lines 385-405), given the
already-unpickled saved network: selects run `self._r % saved_net.n_runs`,
raises `ValueError` if the loaded hidden weights' shape differs from
`(n_inp_neurons, n_hid_neurons)` or the loaded output weights' shape differs
from `(n_hid_neurons, n_out_neurons)`, and otherwise copies that run's
weights into the new network. -/
def init_weights_file (n_inp_neurons n_hid_neurons n_out_neurons r : Nat)
    (saved : SavedNetwork) : Except String (MatS × MatS) :=
  if (n_inp_neurons, n_hid_neurons) ≠
      ((saved.hid_W_trained (r % saved.n_runs)).rows,
        (saved.hid_W_trained (r % saved.n_runs)).cols) then
    .error "Hidden weights loaded from file are not of the same shape as those of the current network"
  else if (n_hid_neurons, n_out_neurons) ≠
      ((saved.out_W_trained (r % saved.n_runs)).rows,
        (saved.out_W_trained (r % saved.n_runs)).cols) then
    .error "Output weights loaded from file are not of the same shape as those of the current network"
  else
    .ok (saved.hid_W_trained (r % saved.n_runs), saved.out_W_trained (r % saved.n_runs))

/-- `self._n_batches = self._n_images/self.batch_size` (`hebbian_net.py`
line 150; Python 2 integer division, i.e. floor). -/
def n_batches (n_images batch_size : Nat) : Nat := n_images / batch_size

/-- `rnd_images[b*self.batch_size:(b+1)*self.batch_size,:]` (`hebbian_net.py`
line 216): the `b`-th mini-batch slice of the shuffled data. -/
def batch_slice {α : Type} (xs : List α) (batch_size b : Nat) : List α :=
  (xs.drop (b * batch_size)).take batch_size

/-- `np.sum(greedy==batch_labels)` for batch `b` (`hebbian_net.py` line 249):
the number of samples in the batch whose greedy choice equals the label.  The
greedy choices and shuffled labels are indexed by global sample position;
the greedy choice is an oracle covering the network's randomized propagation. -/
def batch_correct (greedy labels : Nat → ℤ) (batch_size b : Nat) : Nat :=
  ((List.range batch_size).filter
    (fun k => decide (greedy (b * batch_size + k) = labels (b * batch_size + k)))).length

/-- The accumulated `correct` counter after the batch loop of one episode
(`hebbian_net.py` lines 209-249). -/
def episode_correct (greedy labels : Nat → ℤ) (batch_size n_images : Nat) : Nat :=
  ∑ b in Finset.range (n_batches n_images batch_size), batch_correct greedy labels batch_size b

/-- `correct/self._n_images` (`hebbian_net.py` line 255): the training accuracy
recorded into `self.perf_train_prog` for the episode. -/
def train_accuracy (greedy labels : Nat → ℤ) (batch_size n_images : Nat) : ℚ :=
  (episode_correct greedy labels batch_size n_images : ℚ) / (n_images : ℚ)

/-- Claim C1: for every batch, `_learning_step(pre, post, W, lr, dopa)` (with the
weight-limiting mode off) computes the weight delta by scaling each sample's
post-synaptic activation row by `lr * dopa[sample]` (dopa defaulting to the
all-ones vector when it is `None` or its length differs from the batch size),
forming the outer product `pre^T · scaled_post`, and subtracting
`(column sum of scaled_post) * W`; this delta is added to the weight matrix
(whose entries are then clamped to the floor `1e-10`).  Holds for both values
of the `numba` flag. -/
theorem learning_step_delta_spec (numba : Bool) (batch : Nat)
    (pre_neurons post_neurons W : Mat) (lr : ℚ) (dopa : Option (Nat × (Nat → ℚ))) :
    learning_step false numba batch pre_neurons post_neurons W lr dopa =
      .ok (fun i j =>
        max (W i j +
          ((∑ s in Finset.range batch,
              pre_neurons s i * (post_neurons s j * (lr * default_dopa batch dopa s)))
            - (∑ s in Finset.range batch,
                post_neurons s j * (lr * default_dopa batch dopa s)) * W i j))
          (1 / 10 ^ 10)) := by
  cases numba <;> rfl

/-- Claim C2: for every weight matrix and every (non-empty) sequence of
learning-rule update steps that runs to completion, every entry of the
returned weight matrix is at least the positive floor `1e-10`; since the
intermediate matrix after each step is itself the result of such a sequence,
the invariant holds after every step. -/
theorem run_learning_steps_floor (lim_weights : Bool) (steps : List LStep)
    (W0 W' : Mat) (hne : steps ≠ [])
    (hrun : run_learning_steps lim_weights steps W0 = .ok W') :
    ∀ i j, (1 : ℚ) / 10 ^ 10 ≤ W' i j := by
  cases lim_weights with
  | true =>
    cases steps with
    | nil => exact absurd rfl hne
    | cons s rest => simp [run_learning_steps, learning_step] at hrun
  | false =>
    induction steps generalizing W0 with
    | nil => exact absurd rfl hne
    | cons s rest ih =>
      have hstep : run_learning_steps false (s :: rest) W0 =
          run_learning_steps false rest
            (learning_step_ok s.numba s.batch s.pre_neurons s.post_neurons W0 s.lr s.dopa) := rfl
      rw [hstep] at hrun
      cases rest with
      | nil =>
        simp only [run_learning_steps, Except.ok.injEq] at hrun
        intro i j
        rw [← hrun]
        exact le_max_right _ _
      | cons t ts =>
        exact ih _ (by simp) hrun

/-- Witness for C2: a concrete one-step sequence satisfies the hypotheses and
yields a matrix bounded below by the floor. -/
theorem run_learning_steps_floor_witness :
    (1 : ℚ) / 10 ^ 10 ≤
      learning_step_ok true 1 (fun _ _ => 1) (fun _ _ => 1) (fun _ _ => 1) 1 none 0 0 :=
  run_learning_steps_floor false
    [⟨true, 1, fun _ _ => 1, fun _ _ => 1, 1, none⟩]
    (fun _ _ => 1) _ (by simp) rfl 0 0

/-- Claim C4 (code evaluated at the failing input): with `lim_weights = True`,
`_learning_step` raises `NameError` instead of masking columns, because the
guard on line 641 reads the undefined name `e` (and line 642 the undefined
`hid_dW`); the intended episode test and mask are never computed. -/
theorem learning_step_lim_weights_error :
    learning_step true true 1 (fun _ _ => 1) (fun _ _ => 1) (fun _ _ => 1) 1 none =
      .error "NameError: name e is not defined" := rfl

/-- Claim C3: the dopamine routing gives the table-derived signal to at most one
layer.  During the critical/fine/post episodes with the class layer trained,
the hidden layer's gain is the all-ones vector and the output layer gets the
configured table lookup; during the dopamine/perceptual episodes the hidden
layer gets the table lookup and the output layer's gain is the all-zeros
vector; in every remaining case both gains are the all-ones vector, so no
layer receives the table-derived signal. -/
theorem dopa_release_routing (n_epi_crit n_epi_fine n_epi_dopa e : Nat)
    (train_class_layer : Bool) (pred_hid pred_out rew_hid rew_out : Nat → Bool)
    (dopa_values dopa_values_out : DopaValues) :
    (((e < n_epi_crit + n_epi_fine ∨ n_epi_crit + n_epi_fine + n_epi_dopa ≤ e)
        ∧ train_class_layer = true) →
      dopa_release n_epi_crit n_epi_fine n_epi_dopa e train_class_layer
          pred_hid pred_out rew_hid rew_out dopa_values dopa_values_out =
        (fun _ => (1 : ℚ), compute_dopa pred_out rew_out dopa_values_out))
    ∧ ((n_epi_crit + n_epi_fine ≤ e ∧ e < n_epi_crit + n_epi_fine + n_epi_dopa) →
      dopa_release n_epi_crit n_epi_fine n_epi_dopa e train_class_layer
          pred_hid pred_out rew_hid rew_out dopa_values dopa_values_out =
        (compute_dopa pred_hid rew_hid dopa_values, fun _ => (0 : ℚ)))
    ∧ ((¬((e < n_epi_crit + n_epi_fine ∨ n_epi_crit + n_epi_fine + n_epi_dopa ≤ e)
          ∧ train_class_layer = true)
        ∧ ¬(n_epi_crit + n_epi_fine ≤ e ∧ e < n_epi_crit + n_epi_fine + n_epi_dopa)) →
      dopa_release n_epi_crit n_epi_fine n_epi_dopa e train_class_layer
          pred_hid pred_out rew_hid rew_out dopa_values dopa_values_out =
        (fun _ => (1 : ℚ), fun _ => (1 : ℚ))) := by
  refine ⟨fun h1 => ?_, fun h2 => ?_, fun h3 => ?_⟩
  · rw [dopa_release, if_pos h1]
  · have hnot1 : ¬((e < n_epi_crit + n_epi_fine ∨ n_epi_crit + n_epi_fine + n_epi_dopa ≤ e)
        ∧ train_class_layer = true) := by
      rintro ⟨hor, -⟩
      rcases hor with h | h <;> omega
    rw [dopa_release, if_neg hnot1, if_pos h2]
  · rw [dopa_release, if_neg h3.1, if_neg h3.2]

/-- Witness for C3: a concrete episode inside the dopamine period routes the
table lookup to the hidden layer and the all-zeros gain to the output layer. -/
theorem dopa_release_routing_witness :
    dopa_release 1 1 2 2 true (fun _ => true) (fun _ => true) (fun _ => false) (fun _ => false)
        ⟨1, 2, 3, 4⟩ ⟨5, 6, 7, 8⟩ =
      (compute_dopa (fun _ => true) (fun _ => false) ⟨1, 2, 3, 4⟩, fun _ => (0 : ℚ)) :=
  (dopa_release_routing 1 1 2 2 true (fun _ => true) (fun _ => true) (fun _ => false)
    (fun _ => false) ⟨1, 2, 3, 4⟩ ⟨5, 6, 7, 8⟩).2.1 (by omega)

/-- Claim C5 (amended): with early stopping enabled and the current episode
index at least 2, if the last two recorded training-performance entries equal
`1.0` (and, when per-episode testing is enabled, the test entries too), the
evaluator returns true with the `max_perf` record — for every value of the
remaining trace entries and parameters, i.e. before any other stop condition
is consulted. -/
theorem assess_early_stop_max_perf (e n_out_neurons : Nat) (test_each_epi : Bool)
    (perf_train perf_test : Nat → ℚ) (he : 2 ≤ e) (htr : max_perf_cond perf_train e)
    (hte : test_each_epi = true → max_perf_cond perf_test e) :
    assess_early_stop true e n_out_neurons test_each_epi perf_train perf_test =
      some ⟨e, PyVal.s "max_perf", PyVal.s "max_perf"⟩ := by
  rw [assess_early_stop, if_pos rfl, if_pos ⟨he, htr, hte⟩]

/-- Witness for C5: a concrete all-perfect trace at episode 2 triggers the
ceiling condition. -/
theorem assess_early_stop_max_perf_witness :
    assess_early_stop true 2 2 false (fun _ => 1) (fun _ => 0) =
      some ⟨2, PyVal.s "max_perf", PyVal.s "max_perf"⟩ :=
  assess_early_stop_max_perf 2 2 false (fun _ => 1) (fun _ => 0) (by omega)
    ⟨rfl, rfl⟩ (by decide)

/-- Counterexample to C5 as stated: at episode index 1 the last two recorded
training-performance entries both equal `1.0`, yet the evaluator returns
false, because the ceiling check is skipped whenever `self._e < 2`
(`hebbian_net.py` line 655). -/
theorem assess_early_stop_max_perf_cex :
    max_perf_cond (fun _ => 1) 1 ∧
      assess_early_stop true 1 2 false (fun _ => 1) (fun _ => 1) = none :=
  ⟨⟨rfl, rfl⟩, by
    rw [assess_early_stop, if_pos rfl, if_neg (by norm_num), if_neg (by norm_num),
      if_neg (by norm_num), if_neg (by norm_num), if_neg (by norm_num)]⟩

/-- Claim C6 (code evaluated at the failing input): a strictly decreasing trace
`[0.95, 0.9, 0.85, 0.8, 0.75, 0.7]` at episode 5 satisfies only the
performance-decreasing condition (the ceiling condition fails on it), yet the
appended record carries the identifier `'max_perf'` — the same identifier the
ceiling condition uses (`hebbian_net.py` line 689 vs 663), so distinct
conditions are not recorded with distinct identifiers. -/
theorem assess_early_stop_decreasing_record :
    assess_early_stop true 5 2 false decr_trace decr_trace =
        some ⟨5, PyVal.s "max_perf", PyVal.s "max_perf"⟩ ∧
      ¬ max_perf_cond decr_trace 5 := by
  have hnotmax : ¬ max_perf_cond decr_trace 5 := by
    rintro ⟨h1, -⟩
    norm_num [decr_trace] at h1
  have hdec : decreasing_cond decr_trace 5 := by
    intro k hk
    interval_cases k <;> norm_num [decr_trace]
  refine ⟨?_, hnotmax⟩
  rw [assess_early_stop, if_pos rfl, if_neg (by simp [hnotmax]),
    if_neg (by norm_num [decr_trace]), if_pos ⟨by norm_num, hdec, by simp⟩]

/-- Claim C7: `_check_parameters` succeeds exactly when `classifier`,
`protocol` and `pdf_method` all take legal enumerated values; any other value
for one of these three parameters makes construction raise a `ValueError`
before any training computation begins, since `Network.__init__` calls
`_check_parameters` before returning. -/
theorem check_parameters_ok_iff (classifier protocol pdf_method : String) :
    check_parameters classifier protocol pdf_method = .ok () ↔
      (classifier ∈ legal_classifiers ∧ protocol ∈ legal_protocols ∧
        pdf_method ∈ legal_pdf_methods) := by
  by_cases h1 : classifier ∈ legal_classifiers <;>
    by_cases h2 : protocol ∈ legal_protocols <;>
      by_cases h3 : pdf_method ∈ legal_pdf_methods <;>
        simp [check_parameters, h1, h2, h3]

/-- Witness for C7: a fully legal configuration passes the check; an illegal
classifier value makes it fail. -/
theorem check_parameters_ok_iff_witness :
    check_parameters "neural_prob" "digit" "fit" = .ok () ∧
      check_parameters "svm" "digit" "fit" ≠ .ok () :=
  ⟨(check_parameters_ok_iff "neural_prob" "digit" "fit").mpr
      (by simp [legal_classifiers, legal_protocols, legal_pdf_methods]),
    fun h => by
      have hmem := ((check_parameters_ok_iff "svm" "digit" "fit").mp h).1
      simp [legal_classifiers] at hmem⟩

/-- Claim C8: `classifier='bayesian'` is accepted at construction (it is a
legal classifier value), yet every call to the training-time batch
propagation with this classifier returns the `NotImplementedError` raised by
`_propagate_bayesian` as its first statement — before any activation is
computed and for every batch and every outcome of the neural code paths. -/
theorem propagate_bayesian_raises :
    "bayesian" ∈ legal_classifiers ∧
      ∀ (α : Type) (batch_images : List (List ℚ))
        (neural_DA_result neural_prob_result : List (List ℚ) → α),
        propagate α "bayesian" batch_images neural_DA_result neural_prob_result =
          .error "bayesian method out of date since compare_output" :=
  ⟨by simp [legal_classifiers], fun _ _ _ _ => rfl⟩

/-- Claim C9: initializing weights from a saved checkpoint fails with a
shape-mismatch `ValueError` iff the loaded hidden weights' shape differs from
`(n_inp_neurons, n_hid_neurons)` or the loaded output weights' shape differs
from `(n_hid_neurons, n_out_neurons)`; when both shapes match, the weights of
saved run `r % saved.n_runs` are copied into the new network.  The hypothesis
`0 < saved.n_runs` excludes the degenerate pickle on which Python would raise
`ZeroDivisionError` at `self._r % saved_net.n_runs`. -/
theorem init_weights_file_spec (n_inp n_hid n_out r : Nat) (saved : SavedNetwork)
    (_hruns : 0 < saved.n_runs) :
    ((∃ msg, init_weights_file n_inp n_hid n_out r saved = .error msg) ↔
      ((n_inp, n_hid) ≠ ((saved.hid_W_trained (r % saved.n_runs)).rows,
          (saved.hid_W_trained (r % saved.n_runs)).cols) ∨
        (n_hid, n_out) ≠ ((saved.out_W_trained (r % saved.n_runs)).rows,
          (saved.out_W_trained (r % saved.n_runs)).cols)))
    ∧ ((n_inp, n_hid) = ((saved.hid_W_trained (r % saved.n_runs)).rows,
          (saved.hid_W_trained (r % saved.n_runs)).cols) →
        (n_hid, n_out) = ((saved.out_W_trained (r % saved.n_runs)).rows,
          (saved.out_W_trained (r % saved.n_runs)).cols) →
        init_weights_file n_inp n_hid n_out r saved =
          .ok (saved.hid_W_trained (r % saved.n_runs),
            saved.out_W_trained (r % saved.n_runs))) := by
  by_cases h1 : (n_inp, n_hid) = ((saved.hid_W_trained (r % saved.n_runs)).rows,
      (saved.hid_W_trained (r % saved.n_runs)).cols) <;>
    by_cases h2 : (n_hid, n_out) = ((saved.out_W_trained (r % saved.n_runs)).rows,
        (saved.out_W_trained (r % saved.n_runs)).cols) <;>
      simp [init_weights_file, h1, h2]

/-- Witness for C9: a matching-shape configuration copies the weights of run
`r % n_runs = 0` of a concrete one-run saved network. -/
theorem init_weights_file_spec_witness :
    init_weights_file 2 3 4 0
        ⟨1, fun _ => ⟨2, 3, fun _ _ => 0⟩, fun _ => ⟨3, 4, fun _ _ => 0⟩⟩ =
      .ok (⟨2, 3, fun _ _ => 0⟩, ⟨3, 4, fun _ _ => 0⟩) :=
  (init_weights_file_spec 2 3 4 0
      ⟨1, fun _ => ⟨2, 3, fun _ _ => 0⟩, fun _ => ⟨3, 4, fun _ _ => 0⟩⟩
      Nat.one_pos).2 rfl rfl

/-- Claim C10: in every episode exactly `floor(n_images / batch_size)` batches
of exactly `batch_size` samples are processed; trailing samples (indices at
and beyond `n_batches * batch_size`) lie in no batch; the recorded training
accuracy equals the correct count divided by the full `n_images`, so whenever
`batch_size` does not divide `n_images` it is strictly below `1.0` — for every
possible greedy-choice outcome — and the performance-at-ceiling early-stop
condition can never hold of a trace entry holding such an accuracy. -/
theorem train_batching_spec {α : Type} (images : List α) (greedy labels : Nat → ℤ)
    (batch_size n_images : Nat) (hlen : images.length = n_images)
    (hbs : 0 < batch_size) (hnd : ¬ batch_size ∣ n_images) :
    (∀ b, b < n_batches n_images batch_size →
      (batch_slice images batch_size b).length = batch_size)
    ∧ (∀ i b, n_batches n_images batch_size * batch_size ≤ i →
        b < n_batches n_images batch_size →
        ¬(b * batch_size ≤ i ∧ i < b * batch_size + batch_size))
    ∧ train_accuracy greedy labels batch_size n_images < 1
    ∧ (∀ e (trace : Nat → ℚ),
        trace e = train_accuracy greedy labels batch_size n_images →
        ¬ max_perf_cond trace e) := by
  have hmul : ∀ b, b < n_batches n_images batch_size →
      b * batch_size + batch_size ≤ n_batches n_images batch_size * batch_size := by
    intro b hb
    have h1 : (b + 1) * batch_size ≤ n_batches n_images batch_size * batch_size :=
      Nat.mul_le_mul_right batch_size (Nat.succ_le_of_lt hb)
    calc b * batch_size + batch_size = (b + 1) * batch_size := by ring
      _ ≤ _ := h1
  have hfit : n_batches n_images batch_size * batch_size ≤ n_images :=
    Nat.div_mul_le_self _ _
  have hlt_n : n_batches n_images batch_size * batch_size < n_images := by
    have hmod : n_images % batch_size ≠ 0 := fun h =>
      hnd (Nat.dvd_iff_mod_eq_zero.mpr h)
    have hdm := Nat.div_add_mod n_images batch_size
    calc n_batches n_images batch_size * batch_size
        = batch_size * (n_images / batch_size) := Nat.mul_comm _ _
      _ < batch_size * (n_images / batch_size) + n_images % batch_size :=
          Nat.lt_add_of_pos_right (Nat.pos_of_ne_zero hmod)
      _ = n_images := hdm
  have hacc : train_accuracy greedy labels batch_size n_images < 1 := by
    have hcorrect : episode_correct greedy labels batch_size n_images ≤
        n_batches n_images batch_size * batch_size := by
      unfold episode_correct
      calc ∑ b in Finset.range (n_batches n_images batch_size),
            batch_correct greedy labels batch_size b
          ≤ ∑ _b in Finset.range (n_batches n_images batch_size), batch_size :=
            Finset.sum_le_sum (fun b _ => by
              unfold batch_correct
              calc ((List.range batch_size).filter _).length
                  ≤ (List.range batch_size).length := List.length_filter_le _ _
                _ = batch_size := List.length_range _
              )
        _ = n_batches n_images batch_size * batch_size := by
            simp [Finset.sum_const, Finset.card_range]
    have hn_posQ : (0 : ℚ) < (n_images : ℚ) := by
      exact_mod_cast lt_of_le_of_lt (Nat.zero_le _) hlt_n
    rw [train_accuracy, div_lt_one hn_posQ]
    exact_mod_cast lt_of_le_of_lt hcorrect hlt_n
  refine ⟨?_, ?_, hacc, ?_⟩
  · intro b hb
    have h := hmul b hb
    have h' : b * batch_size + batch_size ≤ n_images := le_trans h hfit
    rw [batch_slice, List.length_take, List.length_drop, hlen,
      min_eq_left (by omega)]
  · rintro i b hi hb ⟨-, hlt⟩
    exact lt_irrefl i (lt_of_lt_of_le hlt (le_trans (hmul b hb) hi))
  · rintro e trace htr ⟨-, h2⟩
    rw [htr] at h2
    exact absurd h2 (ne_of_lt hacc)

/-- Witness for C10: with 5 images and batch size 2 the accuracy is strictly
below `1.0` for a concrete everywhere-correct greedy oracle. -/
theorem train_batching_spec_witness :
    ¬ (2 ∣ 5) ∧ train_accuracy (fun _ => 0) (fun _ => 0) 2 5 < 1 :=
  ⟨by omega,
    (train_batching_spec ([0, 0, 0, 0, 0] : List ℤ) (fun _ => 0) (fun _ => 0) 2 5
      rfl (by omega) (by omega)).2.2.1⟩
